import Mathlib

/-!
Shallow embedding of `server.py` (YogaVasishtha local static-file server):
the local-IP resolver, the dual-stack/IPv4 port-scanning loop, the
`DualStackServer.__init__` bind-and-activate lifecycle, and the top-level
program pipeline (URL printing, `--print-only`, serve phase), together with
theorems settling the specification claims about them.
-/

namespace Server

/-- Linux value of `errno.EADDRINUSE`, the only errno the scan loop compares
against (`e.errno == errno.EADDRINUSE`). -/
def EADDRINUSE : Nat := 98

/-- Linux value of `errno.EAFNOSUPPORT` (address family not supported),
the errno raised when the IPv6 stack is unavailable. -/
def EAFNOSUPPORT : Nat := 97

/-- Linux value of `errno.EACCES` (permission denied), an example of an
OS bind error that is neither address-in-use nor family-unavailable. -/
def EACCES : Nat := 13

/-- Outcome of one bind/release probe at a (family, host, port) triple:
either the listener was created (and immediately closed), or the bind
raised `OSError` with the given errno. -/
inductive ProbeResult where
  | success
  | oserror (errno : Nat)
deriving DecidableEq, Repr

/-- `MAX_PORT = 8100  # Try up to this port` — a fixed constant in the
source, independent of the configured preferred port. -/
def MAX_PORT : Nat := 8100

/-- The ports visited by `for port in range(PORT, MAX_PORT + 1)`:
`[P, P+1, ..., MAX_PORT]`, empty when `P > MAX_PORT`. -/
def scanPorts (P : Nat) : List Nat := List.range' P (MAX_PORT + 1 - P)

/-- The scan range as the specification describes it:
`[preferredPort, preferredPort + 100]`. Stated only to be compared with
`scanPorts`, which is the range the source actually uses. -/
def specScanRange (P : Nat) : List Nat := List.range' P 101

/-- Result of the inner IPv4-only loop (lines 67-77): a free port was
found, the range was exhausted, or a non-EADDRINUSE `OSError` was
re-raised at some port. -/
inductive V4Result where
  | found (port : Nat)
  | exhausted
  | raised (port : Nat)
deriving DecidableEq, Repr

/-- The inner IPv4-only loop: for each port, probe `(HOST, port)`;
on success record it and break; on EADDRINUSE continue; on any other
`OSError` re-raise (line 77). -/
def v4Scan (vp : Nat → ProbeResult) : List Nat → V4Result
  | [] => .exhausted
  | p :: rest =>
    match vp p with
    | .success => .found p
    | .oserror e => if e = EADDRINUSE then v4Scan vp rest else .raised p

/-- Result of the whole port-selection block (lines 53-78):
`found useDual port` means `selected_port = port` with `use_dual_stack =
useDual`; `nofree` means `selected_port` stayed `None`; `raised port`
means the inner IPv4 loop re-raised an `OSError` at `port` and the
exception escaped the module-level code. -/
inductive ScanResult where
  | found (useDual : Bool) (port : Nat)
  | nofree
  | raised (port : Nat)
deriving DecidableEq, Repr

/-- The outer dual-stack loop (lines 53-78). For each port, probe
`('::', port)` with a dual-stack server. On success, select it and stop.
On `OSError`: EADDRINUSE continues with the next port; any other errno
falls into the `if selected_port is None and port == PORT` check — at the
first port this runs the inner IPv4-only loop over `range(PORT,
MAX_PORT+1)` and then breaks, while at any later port the `except` block
falls through and the outer loop simply continues. (`selected_port is
None` always holds at that check, because a success breaks out of the
loop immediately, so the embedding keeps only the `port == PORT` test.) -/
def dualScan (dp vp : Nat → ProbeResult) (P0 : Nat) : List Nat → ScanResult
  | [] => .nofree
  | p :: rest =>
    match dp p with
    | .success => .found true p
    | .oserror e =>
      if e = EADDRINUSE then dualScan dp vp P0 rest
      else if p = P0 then
        match v4Scan vp (scanPorts P0) with
        | .found q => .found false q
        | .exhausted => .nofree
        | .raised q => .raised q
      else dualScan dp vp P0 rest

/-- The whole port-selection block, started at the configured port. -/
def selectPort (dp vp : Nat → ProbeResult) (P : Nat) : ScanResult :=
  dualScan dp vp P (scanPorts P)

/-- Address family of a probe attempt. -/
inductive Fam where
  | dual
  | v4
deriving DecidableEq, Repr

/-- One socket bind/release attempt made during the scan: which family it
used and which (host, port) it bound. -/
structure Attempt where
  fam : Fam
  host : String
  port : Nat
deriving DecidableEq, Repr

/-- Probe attempts made by the inner IPv4-only loop, in order; each entry
is a `socketserver.TCPServer((HOST, port), ...)` construction. -/
def v4Trace (vp : Nat → ProbeResult) (host : String) : List Nat → List Attempt
  | [] => []
  | p :: rest =>
    match vp p with
    | .success => [⟨Fam.v4, host, p⟩]
    | .oserror e =>
      if e = EADDRINUSE then ⟨Fam.v4, host, p⟩ :: v4Trace vp host rest
      else [⟨Fam.v4, host, p⟩]

/-- Probe attempts made by the outer dual-stack loop, in order; each
dual-stack entry is a `DualStackServer(('::', port), ...)` construction,
and the IPv4 fallback's attempts are appended when it is entered. -/
def dualTrace (dp vp : Nat → ProbeResult) (host : String) (P0 : Nat) :
    List Nat → List Attempt
  | [] => []
  | p :: rest =>
    match dp p with
    | .success => [⟨Fam.dual, "::", p⟩]
    | .oserror e =>
      if e = EADDRINUSE then ⟨Fam.dual, "::", p⟩ :: dualTrace dp vp host P0 rest
      else if p = P0 then ⟨Fam.dual, "::", p⟩ :: v4Trace vp host (scanPorts P0)
      else ⟨Fam.dual, "::", p⟩ :: dualTrace dp vp host P0 rest

/-- All probe attempts of the whole selection block, in order. Every
attempt binds a listening socket (and releases it again). -/
def selectTrace (dp vp : Nat → ProbeResult) (host : String) (P : Nat) :
    List Attempt :=
  dualTrace dp vp host P (scanPorts P)

/-- Tokenization performed by `os.popen("hostname -I").read().strip().split()`:
the maximal whitespace-separated words of the command output. -/
def ipTokens (s : String) : List String :=
  let step : Char → List Char × List String → List Char × List String :=
    fun c acc =>
      if c.isWhitespace then
        ([], if acc.1 = [] then acc.2 else String.mk acc.1 :: acc.2)
      else (c :: acc.1, acc.2)
  let r := s.toList.foldr step ([], [])
  if r.1 = [] then r.2 else String.mk r.1 :: r.2

/-- `get_local_ip` (lines 8-13). `raw` is the output of `hostname -I`
when the query succeeded, `Option.none` when the facility was unavailable
(the bare `except` also catches the `IndexError` from `[0]` on an empty
split, modelled by the empty-token case). -/
def get_local_ip (raw : Option String) : String :=
  match raw with
  | Option.none => "127.0.0.1"
  | Option.some s =>
    match ipTokens s with
    | [] => "127.0.0.1"
    | t :: _ => if t = "" then "127.0.0.1" else t

/-- Runtime configuration parsed from the CLI: `--port` (default 7000),
`--host` (default `0.0.0.0`), `--print-only`. -/
structure Config where
  port : Nat
  host : String
  printOnly : Bool

/-- The failure line printed when `selected_port is None` (line 81):
it names the range actually attempted, `PORT` to the constant
`MAX_PORT`. -/
def noPortMsg (P : Nat) : String :=
  "❌ No available ports between " ++ toString P ++ " and " ++
    toString MAX_PORT ++ "."

/-- The candidate-URL block printed by lines 87-98. Note the source
interpolates `PORT` (the preferred port), not `selected_port`. -/
def urlLines (cfg : Config) (localIp : String) : List String :=
  let P := toString cfg.port
  ["Candidate URLs for this host (bind host: " ++ cfg.host ++ "):",
   "   • http://localhost:" ++ P ++ "/index.html  (localhost)",
   "   • http://127.0.0.1:" ++ P ++ "/index.html  (fast localhost)"] ++
  (if cfg.host ≠ "" ∧ cfg.host ≠ "0.0.0.0" ∧ cfg.host ≠ "::" then
    ["   • http://" ++ cfg.host ++ ":" ++ P ++ "/index.html  (bound host)"]
   else []) ++
  ["   • http://" ++ localIp ++ ":" ++ P ++ "/index.html  (for network access)",
   "📂 Make sure your files are in the same directory as this script.",
   "🔗 Open the link in your browser."] ++
  (if cfg.host = "0.0.0.0" then
    ["💡 Tip: To serve on a specific loopback (distinct origin), run: python server.py --host 127.0.0.2 --port " ++ P]
   else
    ["💡 Serving bound to " ++ cfg.host ++ ". You can install by opening http://" ++ cfg.host ++ ":" ++ P ++ "/index.html on device."])

/-- How a run of the program ends (or settles): a clean `exit(code)`, the
blocking `serve_forever` on a listener of the given family/host/port, or
an uncaught exception escaping the module level. -/
inductive RunOutcome where
  | exited (code : Nat)
  | serving (dualStack : Bool) (host : String) (port : Nat)
  | crashed
deriving DecidableEq, Repr

/-- The serve phase (lines 103-113). `dualCtorOk` is whether the final
`DualStackServer(('::', selected_port))` construction succeeds; on any
exception the `except Exception` handler silently constructs
`TCPServer((HOST, selected_port))` instead and prints the ordinary
IPv4-only banner (the final fallback construction itself is modelled as
succeeding; if it raised, the exception would be uncaught). -/
def servePhase (cfg : Config) (useDual : Bool) (sp : Nat) (dualCtorOk : Bool) :
    List String × RunOutcome :=
  if useDual then
    if dualCtorOk then
      (["🚀 Serving at (IPv4 + IPv6) on port " ++ toString sp ++ ":"],
       RunOutcome.serving true "::" sp)
    else
      (["🚀 Serving at (IPv4 only) on host " ++ cfg.host ++ " port " ++
          toString sp ++ ":"],
       RunOutcome.serving false cfg.host sp)
  else
    (["🚀 Serving at (IPv4 only) on host " ++ cfg.host ++ " port " ++
        toString sp ++ ":"],
     RunOutcome.serving false cfg.host sp)

/-- The whole program: run the port scan (at import time, before anything
else), exit 1 with the failure line when no port was selected, crash if
the inner IPv4 loop re-raised; otherwise print the candidate URLs, exit 0
under `--print-only`, and otherwise enter the serve phase. Returns the
lines printed to stdout and the outcome. -/
def runProgram (cfg : Config) (dp vp : Nat → ProbeResult)
    (hostnameOut : Option String) (dualCtorOk : Bool) :
    List String × RunOutcome :=
  match selectPort dp vp cfg.port with
  | ScanResult.nofree => ([noPortMsg cfg.port], RunOutcome.exited 1)
  | ScanResult.raised _ => ([], RunOutcome.crashed)
  | ScanResult.found useDual sp =>
    let pre := urlLines cfg (get_local_ip hostnameOut)
    if cfg.printOnly then (pre, RunOutcome.exited 0)
    else
      let s := servePhase cfg useDual sp dualCtorOk
      (pre ++ s.1, s.2)

/-- Socket lifecycle events of `DualStackServer.__init__` (lines 34-46). -/
inductive SockEvent where
  | create
  | setoptDualStack
  | bind
  | activate
  | close
deriving DecidableEq, Repr

/-- `DualStackServer.__init__`: create the IPv6 socket (via
`TCPServer.__init__` with `bind_and_activate=False`), clear
`IPV6_V6ONLY`, then, when `bind_and_activate` is set, run
`server_bind`; `server_activate` under a `try` whose bare `except`
closes the socket and re-raises. Returns the ordered event list and
whether an exception propagates to the caller. -/
def dualStackInit (bindAndActivate bindOk activateOk : Bool) :
    List SockEvent × Bool :=
  let pre := [SockEvent.create, SockEvent.setoptDualStack]
  if bindAndActivate then
    if bindOk then
      if activateOk then (pre ++ [SockEvent.bind, SockEvent.activate], false)
      else (pre ++ [SockEvent.bind, SockEvent.activate, SockEvent.close], true)
    else (pre ++ [SockEvent.bind, SockEvent.close], true)
  else (pre, false)

end Server

namespace Server

/-! ### Helper lemmas about the scan -/

lemma scanPorts_eq_cons {P : Nat} (h : P ≤ MAX_PORT) :
    scanPorts P = P :: List.range' (P + 1) (MAX_PORT - P) := by
  unfold scanPorts
  have he : MAX_PORT + 1 - P = (MAX_PORT - P) + 1 := by omega
  rw [he, List.range'_succ]

lemma mem_scanPorts {P p : Nat} : p ∈ scanPorts P ↔ P ≤ p ∧ p ≤ MAX_PORT := by
  unfold scanPorts
  rw [List.mem_range'_1]
  omega

lemma v4Scan_found_of (vp : Nat → ProbeResult) (q : Nat) :
    ∀ n s, s ≤ q → q < s + n → vp q = ProbeResult.success →
      (∀ p, s ≤ p → p < q → vp p = ProbeResult.oserror EADDRINUSE) →
      v4Scan vp (List.range' s n) = V4Result.found q := by
  intro n
  induction n with
  | zero => intro s h1 h2 _ _; omega
  | succ n ih =>
    intro s h1 h2 hq hb
    rw [List.range'_succ]
    by_cases hs : s = q
    · subst hs; simp [v4Scan, hq]
    · have hlt : s < q := by omega
      have hbs := hb s le_rfl hlt
      simp only [v4Scan, hbs, if_pos]
      exact ih (s + 1) (by omega) (by omega) hq fun p hp1 hp2 => hb p (by omega) hp2

lemma v4Scan_raised_of (vp : Nat → ProbeResult) (q e : Nat) :
    ∀ n s, s ≤ q → q < s + n → vp q = ProbeResult.oserror e → e ≠ EADDRINUSE →
      (∀ p, s ≤ p → p < q → vp p = ProbeResult.oserror EADDRINUSE) →
      v4Scan vp (List.range' s n) = V4Result.raised q := by
  intro n
  induction n with
  | zero => intro s h1 h2 _ _ _; omega
  | succ n ih =>
    intro s h1 h2 hq he hb
    rw [List.range'_succ]
    by_cases hs : s = q
    · subst hs; simp [v4Scan, hq, he]
    · have hlt : s < q := by omega
      have hbs := hb s le_rfl hlt
      simp only [v4Scan, hbs, if_pos]
      exact ih (s + 1) (by omega) (by omega) hq he fun p hp1 hp2 => hb p (by omega) hp2

lemma v4Scan_found_mem (vp : Nat → ProbeResult) :
    ∀ l q, v4Scan vp l = V4Result.found q → q ∈ l := by
  intro l
  induction l with
  | nil => intro q h; simp [v4Scan] at h
  | cons p rest ih =>
    intro q h
    simp only [v4Scan] at h
    split at h
    · injection h with h1
      simp [h1]
    · split at h
      · exact List.mem_cons_of_mem _ (ih q h)
      · exact absurd h (by simp)

lemma dualScan_found_of (dp vp : Nat → ProbeResult) (P0 q : Nat) :
    ∀ n s, s ≤ q → q < s + n → dp q = ProbeResult.success →
      (∀ p, s ≤ p → p < q → dp p = ProbeResult.oserror EADDRINUSE) →
      dualScan dp vp P0 (List.range' s n) = ScanResult.found true q := by
  intro n
  induction n with
  | zero => intro s h1 h2 _ _; omega
  | succ n ih =>
    intro s h1 h2 hq hb
    rw [List.range'_succ]
    by_cases hs : s = q
    · subst hs; simp [dualScan, hq]
    · have hlt : s < q := by omega
      have hbs := hb s le_rfl hlt
      simp only [dualScan, hbs, if_pos]
      exact ih (s + 1) (by omega) (by omega) hq fun p hp1 hp2 => hb p (by omega) hp2

lemma dualScan_found_mem (dp vp : Nat → ProbeResult) (P0 : Nat) :
    ∀ l b q, dualScan dp vp P0 l = ScanResult.found b q →
      q ∈ l ∨ q ∈ scanPorts P0 := by
  intro l
  induction l with
  | nil => intro b q h; simp [dualScan] at h
  | cons p rest ih =>
    intro b q h
    simp only [dualScan] at h
    split at h
    · injection h with h1 h2
      left; simp [h2]
    · split at h
      · rcases ih b q h with hl | hr
        · exact Or.inl (List.mem_cons_of_mem _ hl)
        · exact Or.inr hr
      · split at h
        · split at h
          · injection h with h1 h2
            subst h2
            right
            exact v4Scan_found_mem vp _ _ (by assumption)
          · exact absurd h (by simp)
          · exact absurd h (by simp)
        · rcases ih b q h with hl | hr
          · exact Or.inl (List.mem_cons_of_mem _ hl)
          · exact Or.inr hr

lemma dualScan_all_busy (dp vp : Nat → ProbeResult) (P0 : Nat)
    (hdp : ∀ p, dp p = ProbeResult.oserror EADDRINUSE) :
    ∀ l, dualScan dp vp P0 l = ScanResult.nofree := by
  intro l
  induction l with
  | nil => simp [dualScan]
  | cons p rest ih => simp [dualScan, hdp p, ih]

lemma dualTrace_all_busy (dp vp : Nat → ProbeResult) (host : String) (P0 : Nat)
    (hdp : ∀ p, dp p = ProbeResult.oserror EADDRINUSE) :
    ∀ l, dualTrace dp vp host P0 l = l.map fun p => Attempt.mk Fam.dual "::" p := by
  intro l
  induction l with
  | nil => simp [dualTrace]
  | cons p rest ih => simp [dualTrace, hdp p, ih]

lemma v4Trace_fam_host (vp : Nat → ProbeResult) (host : String) :
    ∀ l, ∀ a ∈ v4Trace vp host l, a.fam = Fam.v4 ∧ a.host = host := by
  intro l
  induction l with
  | nil => intro a ha; simp [v4Trace] at ha
  | cons p rest ih =>
    intro a ha
    simp only [v4Trace] at ha
    split at ha
    · simp at ha; simp [ha]
    · split at ha
      · rcases List.mem_cons.mp ha with h | h
        · simp [h]
        · exact ih a h
      · simp at ha; simp [ha]

lemma dualScan_first_port_error (dp vp : Nat → ProbeResult) (P e : Nat)
    (hP : P ≤ MAX_PORT) (hdp : dp P = ProbeResult.oserror e)
    (he : e ≠ EADDRINUSE) :
    selectPort dp vp P =
      match v4Scan vp (scanPorts P) with
      | V4Result.found q => ScanResult.found false q
      | V4Result.exhausted => ScanResult.nofree
      | V4Result.raised q => ScanResult.raised q := by
  unfold selectPort
  conv_lhs => rw [scanPorts_eq_cons hP]
  simp [dualScan, hdp, he]

lemma dualTrace_first_port_error (dp vp : Nat → ProbeResult) (host : String)
    (P e : Nat) (hP : P ≤ MAX_PORT) (hdp : dp P = ProbeResult.oserror e)
    (he : e ≠ EADDRINUSE) :
    selectTrace dp vp host P =
      Attempt.mk Fam.dual "::" P :: v4Trace vp host (scanPorts P) := by
  unfold selectTrace
  conv_lhs => rw [scanPorts_eq_cons hP]
  simp [dualTrace, hdp, he]

end Server

namespace Server

/-! ### Claims -/

/-- Claim C1 counterexample: the scan range is not
`[preferredPort, preferredPort+100]`. At the default preferred port 7000
the scanned ports differ from the spec's range, and the scan tries port
8100, which lies outside `[7000, 7100]`. -/
theorem scanRange_ne_spec_range :
    scanPorts 7000 ≠ specScanRange 7000 ∧
    8100 ∈ scanPorts 7000 ∧ 8100 ∉ specScanRange 7000 := by
  refine ⟨?_, ?_, ?_⟩
  · intro h
    have h2 := congrArg List.length h
    simp only [scanPorts, specScanRange, List.length_range', MAX_PORT] at h2
    omega
  · exact mem_scanPorts.mpr ⟨by omega, by decide⟩
  · intro h
    rw [specScanRange, List.mem_range'_1] at h
    omega

/-- Claim C1 (amended): the port scan tries exactly the ports in
`[preferredPort, 8100]` — the upper bound is the code's fixed
`MAX_PORT = 8100`, not `preferredPort + 100` — and if every port in that
range is held the process exits with code 1, printing the failure line
that names exactly that attempted range. -/
theorem scan_exhausts_fixed_range_exit1 (P : Nat) (host : String)
    (dp vp : Nat → ProbeResult) (ip : Option String) (ok po : Bool)
    (hdp : ∀ p, dp p = ProbeResult.oserror EADDRINUSE) :
    selectTrace dp vp host P
      = (scanPorts P).map (fun p => Attempt.mk Fam.dual "::" p) ∧
    runProgram ⟨P, host, po⟩ dp vp ip ok
      = ([noPortMsg P], RunOutcome.exited 1) := by
  constructor
  · exact dualTrace_all_busy dp vp host P hdp _
  · have h := dualScan_all_busy dp vp P hdp (scanPorts P)
    simp only [runProgram, selectPort, h]

/-- Witness for C1's amended theorem at the default port 7000 with every
probe reporting address-in-use. -/
theorem scan_exhausts_fixed_range_exit1_witness :
    selectTrace (fun _ => ProbeResult.oserror EADDRINUSE)
        (fun _ => ProbeResult.oserror EADDRINUSE) "0.0.0.0" 7000
      = (scanPorts 7000).map (fun p => Attempt.mk Fam.dual "::" p) ∧
    runProgram ⟨7000, "0.0.0.0", false⟩ (fun _ => ProbeResult.oserror EADDRINUSE)
        (fun _ => ProbeResult.oserror EADDRINUSE) Option.none true
      = ([noPortMsg 7000], RunOutcome.exited 1) :=
  scan_exhausts_fixed_range_exit1 7000 "0.0.0.0" _ _ Option.none true false
    (fun _ => rfl)

/-- Claim C2 counterexample: with preferred port 9500 and every probe
succeeding (no port held anywhere, dual-stack available), the selector
does not return 9500 — `range(9500, 8101)` is empty, so nothing is
selected at all. -/
theorem select_fails_above_max_port :
    selectPort (fun _ => ProbeResult.success) (fun _ => ProbeResult.success) 9500
      = ScanResult.nofree ∧
    selectPort (fun _ => ProbeResult.success) (fun _ => ProbeResult.success) 9500
      ≠ ScanResult.found true 9500 := by
  exact ⟨rfl, by decide⟩

/-- Claim C2 (amended): provided the preferred port does not exceed the
code's fixed `MAX_PORT = 8100`, the dual-stack scan is ascending: if
every port from `preferredPort` up to some free `q ≤ 8100` is held
(address-in-use) and `q` itself is free, the selector returns exactly `q`
under the dual-stack strategy — in particular `preferredPort` itself when
it is free, and never a port lower than the first free one. -/
theorem select_lowest_free_port (dp vp : Nat → ProbeResult) (P q : Nat)
    (hq1 : P ≤ q) (hq2 : q ≤ MAX_PORT)
    (hfree : dp q = ProbeResult.success)
    (hheld : ∀ p, P ≤ p → p < q → dp p = ProbeResult.oserror EADDRINUSE) :
    selectPort dp vp P = ScanResult.found true q := by
  unfold selectPort scanPorts
  exact dualScan_found_of dp vp P q (MAX_PORT + 1 - P) P hq1 (by omega) hfree hheld

/-- Witness for C2's amended theorem: port 7000 held, 7001 free, the
selector returns 7001 under dual-stack. -/
theorem select_lowest_free_port_witness :
    selectPort
      (fun p => if p = 7000 then ProbeResult.oserror EADDRINUSE
        else ProbeResult.success)
      (fun _ => ProbeResult.success) 7000 = ScanResult.found true 7001 :=
  select_lowest_free_port _ _ 7000 7001 (by omega) (by decide) (by decide)
    (fun p h1 h2 => by
      have h : p = 7000 := by omega
      subst h
      decide)

/-- Claim C3 counterexample: in the dual-stack phase a permission-denied
error (`EACCES`, neither address-in-use nor family-unavailable) at port
7001 — later than the first port — is silently swallowed: the scan
continues and selects 7002 instead of propagating the error as fatal. -/
theorem dual_phase_swallows_other_error :
    selectPort
      (fun p => if p = 7002 then ProbeResult.success
        else if p = 7001 then ProbeResult.oserror EACCES
        else ProbeResult.oserror EADDRINUSE)
      (fun _ => ProbeResult.success) 7000 = ScanResult.found true 7002 := rfl

/-- Claim C3 (amended): only the IPv4-only phase treats an unexpected OS
bind error as fatal. Once the IPv4-only phase has been entered (after the
dual-stack probe failed at the first port), a non-address-in-use error is
re-raised immediately: the scan stops at that port and the process
terminates abnormally with the exception surfaced. In the dual-stack
phase such an error instead triggers the fallback (first port) or is
silently swallowed (later ports — see the counterexample). -/
theorem v4_phase_other_error_fatal (dp vp : Nat → ProbeResult) (P q e e2 : Nat)
    (hdp : dp P = ProbeResult.oserror e) (he : e ≠ EADDRINUSE)
    (hq1 : P ≤ q) (hq2 : q ≤ MAX_PORT)
    (herr : vp q = ProbeResult.oserror e2) (he2 : e2 ≠ EADDRINUSE)
    (hheld : ∀ p, P ≤ p → p < q → vp p = ProbeResult.oserror EADDRINUSE) :
    selectPort dp vp P = ScanResult.raised q ∧
    ∀ host po ip ok,
      runProgram ⟨P, host, po⟩ dp vp ip ok = ([], RunOutcome.crashed) := by
  have hP : P ≤ MAX_PORT := le_trans hq1 hq2
  have hv4 : v4Scan vp (scanPorts P) = V4Result.raised q := by
    unfold scanPorts
    exact v4Scan_raised_of vp q e2 (MAX_PORT + 1 - P) P hq1 (by omega) herr he2 hheld
  have hsel : selectPort dp vp P = ScanResult.raised q := by
    rw [dualScan_first_port_error dp vp P e hP hdp he, hv4]
  refine ⟨hsel, ?_⟩
  intro host po ip ok
  simp only [runProgram, hsel]

/-- Witness for C3's amended theorem: dual-stack dies at the first port
(family unavailable), the IPv4 probe at 7000 reports `EACCES`, and the
exception escapes: the run crashes. -/
theorem v4_phase_other_error_fatal_witness :
    selectPort (fun _ => ProbeResult.oserror EAFNOSUPPORT)
        (fun p => if p = 7000 then ProbeResult.oserror EACCES
          else ProbeResult.success) 7000
      = ScanResult.raised 7000 ∧
    runProgram ⟨7000, "0.0.0.0", false⟩
        (fun _ => ProbeResult.oserror EAFNOSUPPORT)
        (fun p => if p = 7000 then ProbeResult.oserror EACCES
          else ProbeResult.success) Option.none true
      = ([], RunOutcome.crashed) :=
  ⟨(v4_phase_other_error_fatal _ _ 7000 7000 EAFNOSUPPORT EACCES rfl (by decide)
      (by omega) (by decide) (by decide) (by decide)
      (fun p h1 h2 => absurd (Nat.lt_of_le_of_lt h1 h2) (Nat.lt_irrefl 7000))).1,
   (v4_phase_other_error_fatal _ _ 7000 7000 EAFNOSUPPORT EACCES rfl (by decide)
      (by omega) (by decide) (by decide) (by decide)
      (fun p h1 h2 => absurd (Nat.lt_of_le_of_lt h1 h2) (Nat.lt_irrefl 7000))).2
     "0.0.0.0" false Option.none true⟩

/-- Claim C4: when the dual-stack probe fails at the first port with a
family-unavailable (non-address-in-use) error, the selector abandons
dual-stack entirely: its probe trace is the single dual-stack attempt at
the preferred port followed only by IPv4 attempts bound to the configured
host over the same numeric range `range(PORT, MAX_PORT+1)` starting at
the same preferred port; and when the IPv4-only scan finds a port, the
outcome is IPv4-only (`use_dual_stack = False`). -/
theorem family_unavail_first_port_fallback (dp vp : Nat → ProbeResult)
    (host : String) (P e : Nat) (hP : P ≤ MAX_PORT)
    (hdp : dp P = ProbeResult.oserror e) (he : e ≠ EADDRINUSE) :
    selectTrace dp vp host P
      = Attempt.mk Fam.dual "::" P :: v4Trace vp host (scanPorts P) ∧
    (∀ a ∈ v4Trace vp host (scanPorts P), a.fam = Fam.v4 ∧ a.host = host) ∧
    (∀ q, v4Scan vp (scanPorts P) = V4Result.found q →
      selectPort dp vp P = ScanResult.found false q) := by
  refine ⟨dualTrace_first_port_error dp vp host P e hP hdp he,
    v4Trace_fam_host vp host _, ?_⟩
  intro q hq
  rw [dualScan_first_port_error dp vp P e hP hdp he, hq]

/-- Witness for C4 with IPv6 unavailable (`EAFNOSUPPORT`) at port 7000
and every IPv4 port free: one dual attempt, then the IPv4 fallback picks
7000. -/
theorem family_unavail_first_port_fallback_witness :
    selectTrace (fun _ => ProbeResult.oserror EAFNOSUPPORT)
        (fun _ => ProbeResult.success) "0.0.0.0" 7000
      = Attempt.mk Fam.dual "::" 7000 ::
          v4Trace (fun _ => ProbeResult.success) "0.0.0.0" (scanPorts 7000) ∧
    selectPort (fun _ => ProbeResult.oserror EAFNOSUPPORT)
        (fun _ => ProbeResult.success) 7000 = ScanResult.found false 7000 :=
  ⟨(family_unavail_first_port_fallback _ _ "0.0.0.0" 7000 EAFNOSUPPORT
      (by decide) rfl (by decide)).1,
   (family_unavail_first_port_fallback _ _ "0.0.0.0" 7000 EAFNOSUPPORT
      (by decide) rfl (by decide)).2.2 7000 rfl⟩

end Server

namespace Server

/-- Claim C5 counterexample: `--print-only` does not exit before binding
any socket — the module-level port scan runs first and each probe is a
bind/release. With the default configuration and every port free, a
dual-stack probe listener is bound (and released) at port 7000 before the
print-only exit with code 0. -/
theorem print_only_still_probes :
    selectTrace (fun _ => ProbeResult.success) (fun _ => ProbeResult.success)
        "0.0.0.0" 7000
      = [Attempt.mk Fam.dual "::" 7000] ∧
    runProgram ⟨7000, "0.0.0.0", true⟩ (fun _ => ProbeResult.success)
        (fun _ => ProbeResult.success) Option.none true
      = (urlLines ⟨7000, "0.0.0.0", true⟩ "127.0.0.1", RunOutcome.exited 0) :=
  ⟨rfl, rfl⟩

/-- Claim C5 (amended): when invoked with `--print-only` and the port
scan selects a port, the program prints the candidate URLs and exits with
code 0 without ever constructing the serving listener — but only after
the scan, which itself binds and releases probe sockets (see the
counterexample); every probe listener is released immediately, so no
listener remains bound after exit. -/
theorem print_only_exits_zero_after_scan (cfg : Config)
    (dp vp : Nat → ProbeResult) (ip : Option String) (ok useDual : Bool)
    (sp : Nat) (hpo : cfg.printOnly = true)
    (hfound : selectPort dp vp cfg.port = ScanResult.found useDual sp) :
    runProgram cfg dp vp ip ok
      = (urlLines cfg (get_local_ip ip), RunOutcome.exited 0) := by
  simp only [runProgram, hfound, hpo, if_pos]

/-- Witness for C5's amended theorem at port 7000 with every port free
and a two-address `hostname -I` output. -/
theorem print_only_exits_zero_after_scan_witness :
    runProgram ⟨7000, "0.0.0.0", true⟩ (fun _ => ProbeResult.success)
        (fun _ => ProbeResult.success) (Option.some "192.168.1.5 10.0.0.3") true
      = (urlLines ⟨7000, "0.0.0.0", true⟩
          (get_local_ip (Option.some "192.168.1.5 10.0.0.3")),
         RunOutcome.exited 0) :=
  print_only_exits_zero_after_scan ⟨7000, "0.0.0.0", true⟩ _ _
    (Option.some "192.168.1.5 10.0.0.3") true true 7000 rfl rfl

/-- Claim C6: the spec's end-to-end expectation fails on the code. With
`--port 9500 --print-only`, the scan range `range(9500, MAX_PORT+1) =
range(9500, 8101)` is empty, so regardless of which ports are free the
program prints only `❌ No available ports between 9500 and 8100.` and
exits with code 1 — it never prints `http://localhost:9500/index.html`
or `http://127.0.0.1:9500/index.html` and never exits 0. -/
theorem port9500_print_only_fails (dp vp : Nat → ProbeResult)
    (ip : Option String) (ok : Bool) :
    runProgram ⟨9500, "0.0.0.0", true⟩ dp vp ip ok
      = ([noPortMsg 9500], RunOutcome.exited 1) := rfl

/-- Claim C7: the selected-port invariant. Whenever the scan sets
`selected_port` (under either strategy) the port lies in
`[preferredPort, MAX_PORT]` inclusive; when it does not, the process
terminates before the serve phase — with the reported no-ports failure
and exit code 1, or with the re-raised probe exception. -/
theorem selected_port_invariant (dp vp : Nat → ProbeResult) (P : Nat) :
    (∀ b q, selectPort dp vp P = ScanResult.found b q →
      P ≤ q ∧ q ≤ MAX_PORT) ∧
    (∀ host po ip ok, selectPort dp vp P = ScanResult.nofree →
      runProgram ⟨P, host, po⟩ dp vp ip ok
        = ([noPortMsg P], RunOutcome.exited 1)) ∧
    (∀ host po ip ok q, selectPort dp vp P = ScanResult.raised q →
      runProgram ⟨P, host, po⟩ dp vp ip ok = ([], RunOutcome.crashed)) := by
  refine ⟨?_, ?_, ?_⟩
  · intro b q h
    unfold selectPort at h
    rcases dualScan_found_mem dp vp P (scanPorts P) b q h with h1 | h1 <;>
      exact mem_scanPorts.mp h1
  · intro host po ip ok h
    simp only [runProgram, h]
  · intro host po ip ok q h
    simp only [runProgram, h]

/-- Witness for C7 at port 7000 with every port free: the selected port
7000 lies in `[7000, MAX_PORT]`. -/
theorem selected_port_invariant_witness :
    selectPort (fun _ => ProbeResult.success) (fun _ => ProbeResult.success) 7000
      = ScanResult.found true 7000 ∧
    (7000 ≤ 7000 ∧ 7000 ≤ MAX_PORT) :=
  ⟨rfl,
   (selected_port_invariant (fun _ => ProbeResult.success)
      (fun _ => ProbeResult.success) 7000).1 true 7000 rfl⟩

/-- Claim C8: the local-IP resolver is total — it returns a string for
every outcome of the `hostname -I` query by construction — and on every
failure of that query (command unavailable, modelled `Option.none`, which
also covers a raising read; or an empty/whitespace result, whose `[0]`
would raise `IndexError` into the bare `except`) it returns exactly
`"127.0.0.1"`. -/
theorem get_local_ip_never_raises :
    (∀ raw, raw = Option.none → get_local_ip raw = "127.0.0.1") ∧
    (∀ s, ipTokens s = [] → get_local_ip (Option.some s) = "127.0.0.1") := by
  constructor
  · intro raw h
    subst h
    rfl
  · intro s h
    simp [get_local_ip, h]

/-- Witness for C8 at an unavailable query and at an empty output. -/
theorem get_local_ip_never_raises_witness :
    get_local_ip Option.none = "127.0.0.1" ∧
    (ipTokens "" = [] ∧ get_local_ip (Option.some "") = "127.0.0.1") :=
  ⟨get_local_ip_never_raises.1 Option.none rfl,
   rfl, get_local_ip_never_raises.2 "" rfl⟩

/-- Claim C9: at serve time, when the final `DualStackServer`
construction fails (any exception), nothing is reported: the handler
silently constructs the IPv4-only `TCPServer((HOST, selected_port))` and
prints exactly the ordinary IPv4-only serving banner — the output and
outcome are identical to the non-dual-stack path on the same selected
port and the configured host. -/
theorem dual_ctor_failure_silent_fallback (cfg : Config) (sp : Nat) :
    servePhase cfg true sp false
      = (["🚀 Serving at (IPv4 only) on host " ++ cfg.host ++ " port "
            ++ toString sp ++ ":"],
         RunOutcome.serving false cfg.host sp) ∧
    servePhase cfg true sp false = servePhase cfg false sp true := by
  constructor <;> rfl

/-- Claim C10: `DualStackServer.__init__` with `bind_and_activate` set
never leaks its listening socket: whenever `server_bind` or
`server_activate` fails, the event sequence ends with `close` and the
exception propagates to the caller — the socket is closed before the
re-raise. -/
theorem dual_init_closes_before_raise (bindOk activateOk : Bool)
    (h : bindOk = false ∨ activateOk = false) :
    (dualStackInit true bindOk activateOk).2 = true ∧
    (dualStackInit true bindOk activateOk).1.getLast? = some SockEvent.close := by
  rcases h with h | h
  · subst h
    cases activateOk <;> decide
  · subst h
    cases bindOk <;> decide

/-- Witness for C10 with a failing `server_bind`. -/
theorem dual_init_closes_before_raise_witness :
    (dualStackInit true false true).2 = true ∧
    (dualStackInit true false true).1.getLast? = some SockEvent.close :=
  dual_init_closes_before_raise false true (Or.inl rfl)

end Server
